import Mathlib

/-!
Verification of the Aspect-Bench experiment pipeline
(`src/scripts/run_benchmark.py`): test-output parsing (`run_tests`),
code-block extraction (`extract_code_blocks`), file application
(`apply_code_blocks`), per-run scoring (`run_single_task`) and the
experiment controller (`run_aspect_experiment`).

All string manipulation is implemented over `List Char` with structural
recursion so that every definition evaluates inside the kernel.  Side
effects (subprocess exit codes and captured output, the provider call,
file writes) are modelled by explicit inputs: an environment record per
run, a file-system value threaded through `apply_code_blocks`, and a
failure oracle standing for the `try/except` around each file write.
-/

/-- ASCII decimal digit, the characters matched by the `\d` class in the
summary-line patterns of `run_benchmark.py` (lines 112-113). -/
def isAsciiDigit (c : Char) : Bool := '0' ≤ c && c ≤ '9'

/-- Whitespace as matched by Python's `\s` class and stripped by
`str.strip()` (space, tab, newline, carriage return, vertical tab,
form feed). -/
def isPySpace (c : Char) : Bool :=
  c == ' ' || c == '\t' || c == '\n' || c == '\r' || c == '\x0b' || c == '\x0c'

/-- Word characters matched by `\w` in the fence pattern of
`extract_code_blocks` (line 197). -/
def isWordChar (c : Char) : Bool := c.isAlphanum || c == '_'

/-- Decimal value of a digit run, as `int()` applied to a matched group. -/
def digitsToNat (ds : List Char) : Nat :=
  ds.foldl (fun acc c => acc * 10 + (c.toNat - '0'.toNat)) 0

/-- `str.strip()` on a character list: drop leading and trailing
whitespace. -/
def pyStripL (l : List Char) : List Char :=
  ((l.dropWhile isPySpace).reverse.dropWhile isPySpace).reverse

/-- `str.strip()` on a string. -/
def pyStrip (s : String) : String := String.mk (pyStripL s.toList)

/-- `str.startswith(pre)`. -/
def pyStartsWith (pre s : String) : Bool := pre.toList.isPrefixOf s.toList

/-- `str.split(sep)` for a single-character separator, Python semantics
(an empty string yields one empty field). -/
def splitChar (sep : Char) : List Char → List (List Char)
  | [] => [[]]
  | c :: cs =>
    let r := splitChar sep cs
    if c == sep then [] :: r
    else
      match r with
      | [] => [[c]]
      | h :: t => (c :: h) :: t

/-- `"\n".join(lines)` on character lists. -/
def joinNl : List (List Char) → List Char
  | [] => []
  | [l] => l
  | l :: ls => l ++ '\n' :: joinNl ls

/-- Tail truncation used for captured output: `s[-n:] if len(s) > n else s`
(`run_benchmark.py` lines 123-124). -/
def tailTrunc (n : Nat) (s : String) : String :=
  if s.length > n then String.mk (s.toList.drop (s.length - n)) else s

/-- Attempt, at the current position, to match the regex
`(\d+)\s+<kw>`: a maximal digit run, at least one whitespace character,
then the literal keyword.  Returns the digit run's value. -/
def matchCountAt (kw : List Char) (cs : List Char) : Option Nat :=
  let ds := cs.takeWhile isAsciiDigit
  if ds.isEmpty then none
  else
    let rest := cs.dropWhile isAsciiDigit
    let ws := rest.takeWhile isPySpace
    if ws.isEmpty then none
    else if kw.isPrefixOf (rest.dropWhile isPySpace) then some (digitsToNat ds)
    else none

/-- Leftmost match of `(\d+)\s+<kw>`, as `re.search` scans positions left
to right. -/
def searchCount (kw : List Char) : List Char → Option Nat
  | [] => none
  | c :: cs =>
    match matchCountAt kw (c :: cs) with
    | some n => some n
    | none => searchCount kw cs

/-- `re.search(r"(\d+)\s+" + kw, s)` returning the captured number:
the summary-line parsing of `run_tests` (`run_benchmark.py` lines 112-117). -/
def findCount (kw : String) (s : String) : Option Nat :=
  searchCount kw.toList s.toList

/-- The structured result dictionary built by `run_tests`
(`run_benchmark.py` lines 119-128).  `elapsed_seconds` (wall-clock time)
is not modelled. -/
structure TestResult where
  passed : Bool
  exit_code : Int
  stdout : String
  stderr : String
  tests_passed : Nat
  tests_failed : Nat
  tests_total : Nat
deriving DecidableEq

/-- `run_tests` (`run_benchmark.py` lines 86-128) modelled on the
observable outcome of the child process: its exit code and captured
stdout/stderr.  Counts default to 0 when the summary patterns do not
match; `passed` is `returncode == 0`; output is tail-truncated to 5000
(stdout) and 2000 (stderr) characters. -/
def run_tests (exitCode : Int) (stdout stderr : String) : TestResult :=
  let p := (findCount "passed" stdout).getD 0
  let f := (findCount "failed" stdout).getD 0
  { passed := exitCode == 0
    exit_code := exitCode
    stdout := tailTrunc 5000 stdout
    stderr := tailTrunc 2000 stderr
    tests_passed := p
    tests_failed := f
    tests_total := p + f }

/-- The "harness broken" state of spec section 4.4 / 7: zero parsed tests
together with a non-zero exit code. -/
def harnessBroken (r : TestResult) : Prop :=
  r.tests_total = 0 ∧ r.exit_code ≠ 0

/-- A genuinely empty suite that ran cleanly: zero parsed tests and exit
code 0. -/
def cleanEmptySuite (r : TestResult) : Prop :=
  r.tests_total = 0 ∧ r.exit_code = 0

/-- An ordinary test failure: at least one test parsed as failed. -/
def ordinaryTestFailure (r : TestResult) : Prop :=
  0 < r.tests_failed

/-- `count_code_lines` (`run_benchmark.py` lines 183-191): non-empty
lines not starting with `#` or `//`. -/
def count_code_lines (text : String) : Nat :=
  (splitChar '\n' text.toList).countP (fun l =>
    let s := pyStripL l
    !s.isEmpty && !(['#'].isPrefixOf s) && !(['/', '/'].isPrefixOf s))

/-- One entry of the list returned by `extract_code_blocks`
(`run_benchmark.py` lines 219-226). -/
structure Block where
  language : String
  file : Option String
  code : String
  line_count : Nat
deriving DecidableEq

/-- Index of the last newline in a character list, the backtracking
choice of `\s*\n` after the optional language tag. -/
def lastNlIdx : List Char → Option Nat
  | [] => none
  | c :: cs =>
    match lastNlIdx cs with
    | some k => some (k + 1)
    | none => if c == '\n' then some 0 else none

/-- First occurrence of a closing triple backtick, splitting the input
into the lazy `(.*?)` content and the remainder after the fence. -/
def findClose : List Char → Option (List Char × List Char)
  | '`' :: '`' :: '`' :: rest => some ([], rest)
  | c :: cs =>
    match findClose cs with
    | some (content, after) => some (c :: content, after)
    | none => none
  | [] => none

/-- Match the fence pattern ```` ```(\w+)?\s*\n(.*?)``` ```` at the current
position, returning the language tag, the content and the remainder. -/
def matchFenceAt : List Char → Option (List Char × List Char × List Char)
  | '`' :: '`' :: '`' :: rest =>
    let lang := rest.takeWhile isWordChar
    let r1 := rest.dropWhile isWordChar
    match lastNlIdx (r1.takeWhile isPySpace) with
    | none => none
    | some k =>
      match findClose (r1.drop (k + 1)) with
      | none => none
      | some (content, after) => some (lang, content, after)
  | _ => none

/-- `re.findall` over the fence pattern: leftmost, non-overlapping
matches, resuming after each match.  The fuel is the input length; each
step advances at least one position. -/
def scanFences : Nat → List Char → List (List Char × List Char)
  | 0, _ => []
  | _ + 1, [] => []
  | fuel + 1, c :: cs =>
    match matchFenceAt (c :: cs) with
    | some (lang, content, after) => (lang, content) :: scanFences fuel after
    | none => scanFences fuel cs

/-- The comment-marker alternation `(?:#|//|/\*)` of the filepath
annotation pattern (`run_benchmark.py` line 210). -/
def commentRest : List Char → Option (List Char)
  | '#' :: r => some r
  | '/' :: '/' :: r => some r
  | '/' :: '*' :: r => some r
  | _ => none

/-- Case-insensitive literal match, consuming the keyword. -/
def matchKwCI : List Char → List Char → Option (List Char)
  | [], s => some s
  | _ :: _, [] => none
  | k :: ks, c :: cs => if c.toLower == k then matchKwCI ks cs else none

/-- Does a suffix match `\s*(?:\*/)?$`: all whitespace, or whitespace
followed by a closing block-comment marker at the very end. -/
def suffixOk (t : List Char) : Bool :=
  let u := t.dropWhile isPySpace
  u.isEmpty || u == ['*', '/']

/-- The lazy group `(.+?)` followed by `\s*(?:\*/)?$`: the shortest
non-empty capture whose remainder matches the tail pattern. -/
def lazyCapture : List Char → Option (List Char)
  | [] => none
  | c :: rest =>
    if suffixOk rest then some [c]
    else
      match lazyCapture rest with
      | some cap => some (c :: cap)
      | none => none

/-- `re.match(r"^\s*(?:#|//|/\*)\s*filepath:\s*(.+?)\s*(?:\*/)?$", line,
re.IGNORECASE)` followed by `.group(1).strip()`
(`run_benchmark.py` lines 209-213). -/
def matchFilepathLine (l : List Char) : Option String :=
  match commentRest (l.dropWhile isPySpace) with
  | none => none
  | some r1 =>
    match matchKwCI ("filepath:".toList) (r1.dropWhile isPySpace) with
    | none => none
    | some r3 =>
      if r3.isEmpty then none
      else
        match lazyCapture (r3.dropWhile isPySpace) with
        | some cap => some (String.mk (pyStripL cap))
        | none => some ""

/-- The per-block loop of `extract_code_blocks` (lines 204-215): the
first three lines may carry a filepath annotation; matching lines are
stripped out, a later match overwrites an earlier one, and the other
lines become the code. -/
def splitFp : Nat → List (List Char) → Option String → Option String × List (List Char)
  | _, [], fp => (fp, [])
  | i, l :: ls, fp =>
    if i < 3 then
      match matchFilepathLine l with
      | some p => splitFp (i + 1) ls (some p)
      | none =>
        let r := splitFp (i + 1) ls fp
        (r.1, l :: r.2)
    else
      let r := splitFp (i + 1) ls fp
      (r.1, l :: r.2)

/-- Turn one fenced region into a block entry (`run_benchmark.py`
lines 200-226); a block whose stripped code is empty is dropped. -/
def processBlock (lang content : List Char) : Option Block :=
  let lines := splitChar '\n' content
  let r := splitFp 0 lines none
  let code := pyStripL (joinNl r.2)
  if code.isEmpty then none
  else
    some { language := String.mk lang
           file := r.1
           code := String.mk code
           line_count := count_code_lines (String.mk code) }

/-- `extract_code_blocks` (`run_benchmark.py` lines 194-228). -/
def extract_code_blocks (response : String) : List Block :=
  (scanFences response.toList.length response.toList).filterMap
    (fun lc => processBlock lc.1 lc.2)

/-- The filter `[b for b in blocks if b.get("file")]` of
`run_single_task` (line 344): Python truthiness drops both a missing
and an empty filepath. -/
def blocks_with_files (blocks : List Block) : List Block :=
  blocks.filter (fun b =>
    match b.file with
    | some p => !(p == "")
    | none => false)

/-- The working tree under `repo_root`, with paths as component lists
relative to the repository root.  Directories and files are tracked
separately; the root itself always exists. -/
structure FS where
  dirs : List (List String)
  files : List (List String × String)
deriving DecidableEq

/-- Content of a file, later writes shadowing earlier ones. -/
def lookupFile (fs : FS) (p : List String) : Option String :=
  (fs.files.find? (fun kv => kv.1 == p)).map (fun kv => kv.2)

/-- `Path.exists()` relative to the repository root: true for the root
itself, any recorded directory, and any recorded file. -/
def existsPath (fs : FS) (p : List String) : Bool :=
  p.isEmpty || decide (p ∈ fs.dirs) || (lookupFile fs p).isSome

/-- All non-empty prefixes of a component list: the directories created
by `mkdir(parents=True, exist_ok=True)`. -/
def ancestors (p : List String) : List (List String) :=
  (List.range p.length).map (fun i => p.take (i + 1))

/-- `target.parent.mkdir(parents=True, exist_ok=True)`. -/
def addDirs (fs : FS) (p : List String) : FS :=
  { fs with dirs := fs.dirs ++ ancestors p }

/-- `target.write_text(content)`: full replacement of any existing file. -/
def writeFile (fs : FS) (p : List String) (content : String) : FS :=
  { fs with files := (p, content) :: fs.files }

/-- Path normalization of `apply_code_blocks` (lines 241-243): replace
backslashes by slashes and strip one leading `./`. -/
def normPath (fp : String) : String :=
  let l := fp.toList.map (fun c => if c == '\\' then '/' else c)
  String.mk (if ['.', '/'].isPrefixOf l then l.drop 2 else l)

/-- Components of a repo-relative path as produced by
`Path(repo_root) / fp`: split on `/`, dropping empty and `.` segments
as `pathlib` normalization does. -/
def pathComponents (fp : String) : List String :=
  ((splitChar '/' fp.toList).map String.mk).filter (fun s => !(s == "") && !(s == "."))

/-- Target resolution of `apply_code_blocks` (lines 245-250): use the
path under the repository root; if its immediate parent does not exist
and either the backend-prefixed alternative's parent exists or the path
starts with `app/`, use the backend-prefixed alternative. -/
def resolveTarget (fs : FS) (fp : String) : List String :=
  let c := pathComponents fp
  if existsPath fs c.dropLast then c
  else if existsPath fs ("backend" :: c).dropLast || pyStartsWith "app/" fp then
    "backend" :: c
  else c

/-- Result of applying a list of blocks: the final tree, the
`modified_files` return value, and the log of disk writes actually
performed, each as (reported path, resolved target, content). -/
structure ApplyResult where
  fs : FS
  modified_files : List String
  writes : List (String × List String × String)
deriving DecidableEq

/-- `apply_code_blocks` (`run_benchmark.py` lines 231-259).  The `fails`
oracle models an exception raised inside the per-block `try` (line 252-257):
a failing block is logged and skipped, contributing neither a write nor
an entry in `modified_files`. -/
def apply_code_blocks : List Block → FS → (List String → Bool) → ApplyResult
  | [], fs, _ => { fs := fs, modified_files := [], writes := [] }
  | b :: bs, fs0, fails =>
    match b.file with
    | none => apply_code_blocks bs fs0 fails
    | some raw =>
      if raw == "" then apply_code_blocks bs fs0 fails
      else
        let fp := normPath raw
        let t := resolveTarget fs0 fp
        if fails t then apply_code_blocks bs fs0 fails
        else
          let fs1 := writeFile (addDirs fs0 t.dropLast) t b.code
          let r := apply_code_blocks bs fs1 fails
          { fs := r.fs
            modified_files := fp :: r.modified_files
            writes := (fp, t, b.code) :: r.writes }

/-- The fix / regression / no-op classification of spec section 4.5,
reifying the sign branches on `tests_fixed` at `run_benchmark.py`
lines 373-376 and 502-505. -/
def classification (delta : Int) : String :=
  if 0 < delta then "fix" else if delta < 0 then "regression" else "no-op"

/-- The observable environment of one run: outcome of the repository
reset, the pre- and post-test child processes, prompt availability, the
provider call (`Except.error` models a raised exception), the write
failure oracle and the initial working tree. -/
structure TaskEnv where
  resetOk : Bool
  preExit : Int
  preStdout : String
  preStderr : String
  prompt : Option String
  llm : Except String String
  postExit : Int
  postStdout : String
  postStderr : String
  writeFails : List String → Bool
  fs : FS

/-- Pipeline events recorded by the model: repository reset, a test
invocation (with its `with_regression` flag), the provider call and the
application of code blocks. -/
inductive Ev where
  | reset : Ev
  | runTests : Bool → Ev
  | llmCall : Ev
  | applyBlocks : Ev
deriving DecidableEq

/-- The run record dictionary of `run_single_task`
(`run_benchmark.py` lines 275-294); provider/model/timestamp fields and
wall-clock timings are not modelled. -/
structure RunRecord where
  task_id : String
  repo : String
  mode : String
  pre_test : Option TestResult
  llm_response : String
  llm_response_length : Nat
  llm_response_code_lines : Nat
  lines_added_to_repo : Nat
  code_blocks_extracted : Nat
  files_modified : List String
  post_test : Option TestResult
  tests_fixed : Int
  success : Bool
  error : Option String
deriving DecidableEq

/-- The initial record with its default values (lines 275-294). -/
def initRecord (task repo mode : String) : RunRecord :=
  { task_id := task
    repo := repo
    mode := mode
    pre_test := none
    llm_response := ""
    llm_response_length := 0
    llm_response_code_lines := 0
    lines_added_to_repo := 0
    code_blocks_extracted := 0
    files_modified := []
    post_test := none
    tests_fixed := 0
    success := false
    error := none }

/-- `run_single_task` (`run_benchmark.py` lines 262-385): reset, pre-test,
prompt load, provider call, extraction, application, post-test, scoring.
Each early failure sets `error` and returns the record as accumulated so
far; the second component is the trace of pipeline events. -/
def run_single_task (task_id repo_name mode : String) (env : TaskEnv) :
    RunRecord × List Ev :=
  let r0 := initRecord task_id repo_name mode
  if env.resetOk then
    let pre := run_tests env.preExit env.preStdout env.preStderr
    match env.prompt with
    | none =>
      ({ r0 with pre_test := some pre
                 error := some ("Failed to load " ++ mode ++ " prompt") },
       [Ev.reset, Ev.runTests false])
    | some _ =>
      match env.llm with
      | Except.error e =>
        ({ r0 with pre_test := some pre, error := some e },
         [Ev.reset, Ev.runTests false, Ev.llmCall])
      | Except.ok response =>
        let blocks := extract_code_blocks response
        let bwf := blocks_with_files blocks
        let totalLines := (blocks.map Block.line_count).sum
        let addLines := (bwf.map Block.line_count).sum
        if bwf.isEmpty then
          ({ r0 with pre_test := some pre
                     llm_response := response
                     llm_response_length := response.length
                     code_blocks_extracted := blocks.length
                     llm_response_code_lines := totalLines
                     lines_added_to_repo := addLines
                     error := some "No code blocks with filepath extracted" },
           [Ev.reset, Ev.runTests false, Ev.llmCall])
        else
          let app := apply_code_blocks bwf env.fs env.writeFails
          let post := run_tests env.postExit env.postStdout env.postStderr
          ({ r0 with pre_test := some pre
                     llm_response := response
                     llm_response_length := response.length
                     code_blocks_extracted := blocks.length
                     llm_response_code_lines := totalLines
                     lines_added_to_repo := addLines
                     files_modified := app.modified_files
                     post_test := some post
                     success := post.passed
                     tests_fixed := (post.tests_passed : Int) - (pre.tests_passed : Int)
                     error := none },
           [Ev.reset, Ev.runTests false, Ev.llmCall, Ev.applyBlocks,
            Ev.runTests false])
  else
    ({ r0 with error := some "Failed to reset repository" }, [Ev.reset])

/-- The (repo, task) × mode iteration of `run_aspect_experiment`
(lines 438-462): one run record per pair, task-major / mode-minor. -/
def runsFor (env : String → String → String → TaskEnv) (modes : List String) :
    List (String × String) → List (String × String × String × RunRecord)
  | [] => []
  | (repo, t) :: ps =>
    modes.map (fun m => (repo, t, m, (run_single_task t repo m (env repo t m)).1))
      ++ runsFor env modes ps

/-- Concatenated event trace of the whole matrix. -/
def traceFor (env : String → String → String → TaskEnv) (modes : List String) :
    List (String × String) → List Ev
  | [] => []
  | (repo, t) :: ps =>
    (modes.map (fun m => (run_single_task t repo m (env repo t m)).2)).flatten
      ++ traceFor env modes ps

/-- Per-task contribution to the `true_regressions` counters
(lines 486-489): one increment for the mode of each run whose
`tests_fixed` is negative. -/
def trueRegsRow (repo t : String) (env : String → String → String → TaskEnv) :
    List String → String → Nat
  | [], _ => 0
  | m :: ms, x =>
    (if x = m ∧ (run_single_task t repo m (env repo t m)).1.tests_fixed < 0
     then 1 else 0) + trueRegsRow repo t env ms x

/-- The `true_regressions` counters accumulated over the whole matrix. -/
def trueRegsFor (env : String → String → String → TaskEnv) (modes : List String) :
    List (String × String) → String → Nat
  | [], _ => 0
  | (repo, t) :: ps, x =>
    trueRegsRow repo t env modes x + trueRegsFor env modes ps x

/-- The aggregate outcome of `run_aspect_experiment`
(`run_benchmark.py` lines 388-601) restricted to the modelled state: the
run records, the event trace, and the per-mode true-regression counters. -/
structure ExperimentResult where
  runs : List (String × String × String × RunRecord)
  trace : List Ev
  true_regressions : String → Nat

/-- `run_aspect_experiment` over an explicit (repo, task) list and mode
list, with the per-run environment supplied as an oracle. -/
def run_aspect_experiment (pairs : List (String × String)) (modes : List String)
    (env : String → String → String → TaskEnv) : ExperimentResult :=
  { runs := runsFor env modes pairs
    trace := traceFor env modes pairs
    true_regressions := fun m => trueRegsFor env modes pairs m }

/-- A response with one path-annotated fence and one unlabelled fence. -/
def respC4 : String :=
  "Here is the fix:\n```python\n# filepath: app/main.py\nprint(1)\n```\nAlso, for illustration only:\n```\nexample_snippet()\n```\n"

/-- A run whose post-test child process exits non-zero while its output
carries no parsable summary line (the harness-broken shape). -/
def envC1 : TaskEnv :=
  { resetOk := true
    preExit := 1
    preStdout := "5 passed, 3 failed"
    preStderr := ""
    prompt := some "Fix the failing endpoint tests."
    llm := Except.ok "```python\n# filepath: app/fix.py\ny = 2\n```"
    postExit := 2
    postStdout := "ImportError while loading conftest"
    postStderr := ""
    writeFails := fun _ => false
    fs := ⟨[], []⟩ }

/-- A run in which two previously passing tests fail afterwards. -/
def envC2 : TaskEnv := { envC1 with postExit := 1, postStdout := "3 passed, 5 failed" }

/-- Environment oracle returning `envC2` for every run. -/
def envC2fn : String → String → String → TaskEnv := fun _ _ _ => envC2

/-- A fully successful run. -/
def envC6good : TaskEnv := { envC1 with postExit := 0, postStdout := "3 passed" }

/-- Environment oracle returning `envC6good` for every run. -/
def envC6fn : String → String → String → TaskEnv := fun _ _ _ => envC6good

/-- A run whose provider call succeeds but whose response contains no
path-annotated fenced block. -/
def envC6bad : TaskEnv :=
  { envC1 with
    llm := Except.ok "I would refactor the session handling here, but no code is required." }

/-- Two blocks annotated with the same path, distinct contents. -/
def blkC5a : Block :=
  { language := "python", file := some "app/util.py", code := "A = 1", line_count := 1 }

/-- Second block for the same path. -/
def blkC5b : Block :=
  { language := "python", file := some "app/util.py", code := "A = 2", line_count := 1 }

/-- A block whose parent directory does not exist and whose path is not
backend-prefixed. -/
def blkC7 : Block :=
  { language := "python", file := some "zzz/x.py", code := "X = 1", line_count := 1 }

/-- A block whose raw path needs separator normalization and `./`
stripping, targeting a file that already exists. -/
def blkC7w : Block :=
  { language := "python", file := some "./app\\main.py", code := "NEW = True", line_count := 1 }

/-- A tree already holding `app/main.py`. -/
def fsC7w : FS := ⟨[["app"]], [(["app", "main.py"], "OLD = True")]⟩

/-- First block of the write-failure scenario. -/
def blkC8a : Block :=
  { language := "python", file := some "a.py", code := "a", line_count := 1 }

/-- An unlabelled block. -/
def blkC8n : Block :=
  { language := "", file := none, code := "snippet", line_count := 1 }

/-- Last block of the write-failure scenario. -/
def blkC8b : Block :=
  { language := "python", file := some "b.py", code := "b", line_count := 1 }

/-- A block whose write raises. -/
def blkC8bad : Block :=
  { language := "python", file := some "bad.py", code := "c", line_count := 1 }

/-- Failure oracle raising exactly on `bad.py`. -/
def failsC8 : List String → Bool := fun t => t == ["bad.py"]

/-! ## Helper lemmas -/

theorem classification_spec (d : Int) :
    (classification d = "fix" ↔ 0 < d)
    ∧ (classification d = "regression" ↔ d < 0)
    ∧ (classification d = "no-op" ↔ d = 0) := by
  unfold classification
  split_ifs with h1 h2 <;>
    refine ⟨?_, ?_, ?_⟩ <;> simp_all <;> omega

theorem existsPath_nil (fs : FS) : existsPath fs [] = true := rfl

theorem lookupFile_writeFile_self (fs : FS) (t : List String) (c : String) :
    lookupFile (writeFile fs t c) t = some c := by
  simp [lookupFile, writeFile, List.find?_cons]

theorem existsPath_true_iff (fs : FS) (p : List String) :
    existsPath fs p = true ↔ p = [] ∨ p ∈ fs.dirs ∨ ∃ c, (p, c) ∈ fs.files := by
  simp only [existsPath, Bool.or_eq_true, decide_eq_true_eq, List.isEmpty_iff,
    lookupFile, Option.isSome_map', List.find?_isSome, beq_iff_eq]
  constructor
  · rintro ((h | h) | ⟨⟨a, c⟩, hm, he⟩)
    · exact Or.inl h
    · exact Or.inr (Or.inl h)
    · exact Or.inr (Or.inr ⟨c, he ▸ hm⟩)
  · rintro (h | h | ⟨c, hm⟩)
    · exact Or.inl (Or.inl h)
    · exact Or.inl (Or.inr h)
    · exact Or.inr ⟨(p, c), hm, rfl⟩

theorem existsPath_addDirs_iff (fs : FS) (q p : List String) :
    existsPath (addDirs fs q) p = true ↔ existsPath fs p = true ∨ p ∈ ancestors q := by
  rw [existsPath_true_iff, existsPath_true_iff]
  simp only [addDirs, List.mem_append]
  tauto

theorem existsPath_writeFile_iff (fs : FS) (t : List String) (c : String) (p : List String) :
    existsPath (writeFile fs t c) p = true ↔ existsPath fs p = true ∨ p = t := by
  rw [existsPath_true_iff, existsPath_true_iff]
  simp only [writeFile, List.mem_cons, Prod.mk.injEq, exists_or, exists_eq_right_right,
    exists_and_left, exists_eq]
  tauto

theorem mem_ancestors_self (q : List String) (h : q ≠ []) : q ∈ ancestors q := by
  simp only [ancestors, List.mem_map, List.mem_range]
  have hl : 0 < q.length := List.length_pos.mpr h
  exact ⟨q.length - 1, by omega, by rw [Nat.sub_add_cancel hl, List.take_length]⟩

theorem head?_of_mem_ancestors (a : String) (q r : List String)
    (h : r ∈ ancestors (a :: q)) : r.head? = some a := by
  simp only [ancestors, List.mem_map, List.mem_range] at h
  obtain ⟨i, _, hr⟩ := h
  rw [← hr, List.take_succ_cons]
  rfl

theorem resolveTarget_write_stable (fs : FS) (fp : String) (code : String)
    (hb : ((pathComponents fp).dropLast).head? ≠ some "backend") :
    resolveTarget
        (writeFile (addDirs fs (resolveTarget fs fp).dropLast) (resolveTarget fs fp) code) fp
      = resolveTarget fs fp := by
  by_cases hP : existsPath fs (pathComponents fp).dropLast = true
  · have ht : resolveTarget fs fp = pathComponents fp := by
      simp [resolveTarget, hP]
    rw [ht]
    have h2 : existsPath
        (writeFile (addDirs fs (pathComponents fp).dropLast) (pathComponents fp) code)
        (pathComponents fp).dropLast = true := by
      rw [existsPath_writeFile_iff, existsPath_addDirs_iff]
      exact Or.inl (Or.inl hP)
    simp [resolveTarget, h2]
  · have hPne : (pathComponents fp).dropLast ≠ [] := by
      intro h
      exact hP (h ▸ existsPath_nil fs)
    have hcne : pathComponents fp ≠ [] := by
      intro h
      exact hPne (by rw [h]; rfl)
    by_cases hcond :
        (existsPath fs ("backend" :: pathComponents fp).dropLast
          || pyStartsWith "app/" fp) = true
    · have ht : resolveTarget fs fp = "backend" :: pathComponents fp := by
        simp [resolveTarget, hP, hcond]
      rw [ht]
      have hAd : ("backend" :: pathComponents fp).dropLast
          = "backend" :: (pathComponents fp).dropLast := by
        cases hc : pathComponents fp with
        | nil => exact absurd hc hcne
        | cons x xs => rfl
      have hnot : ¬ existsPath
          (writeFile (addDirs fs ("backend" :: pathComponents fp).dropLast)
            ("backend" :: pathComponents fp) code)
          (pathComponents fp).dropLast = true := by
        rw [existsPath_writeFile_iff, existsPath_addDirs_iff, hAd]
        rintro ((h | h) | h)
        · exact hP h
        · exact hb (head?_of_mem_ancestors _ _ _ h)
        · have hlen := congrArg List.length h
          simp only [List.length_dropLast, List.length_cons] at hlen
          have hl : 0 < (pathComponents fp).length := List.length_pos.mpr hcne
          omega
      have hAP : existsPath
          (writeFile (addDirs fs ("backend" :: pathComponents fp).dropLast)
            ("backend" :: pathComponents fp) code)
          ("backend" :: pathComponents fp).dropLast = true := by
        rw [existsPath_writeFile_iff, existsPath_addDirs_iff, hAd]
        exact Or.inl (Or.inr (mem_ancestors_self _ (by simp)))
      simp [resolveTarget, hnot, hAP]
    · have hcondf :
          (existsPath fs ("backend" :: pathComponents fp).dropLast
            || pyStartsWith "app/" fp) = false := by
        simpa using hcond
      have ht : resolveTarget fs fp = pathComponents fp := by
        simp [resolveTarget, hP, hcondf]
      rw [ht]
      have h2 : existsPath
          (writeFile (addDirs fs (pathComponents fp).dropLast) (pathComponents fp) code)
          (pathComponents fp).dropLast = true := by
        rw [existsPath_writeFile_iff, existsPath_addDirs_iff]
        exact Or.inl (Or.inr (mem_ancestors_self _ hPne))
      simp [resolveTarget, h2]

theorem run_single_task_error_none (task repo mode : String) (env : TaskEnv)
    (h : (run_single_task task repo mode env).1.error = none) :
    (run_single_task task repo mode env).1.pre_test.isSome = true
    ∧ (run_single_task task repo mode env).1.post_test.isSome = true := by
  obtain ⟨ro, a1, a2, a3, pr, llm, b1, b2, b3, wf, fs0⟩ := env
  cases ro
  · simp [run_single_task] at h
  · cases pr
    · simp [run_single_task] at h
    · cases llm with
      | error e => simp [run_single_task] at h
      | ok resp =>
        by_cases hbw : (blocks_with_files (extract_code_blocks resp)).isEmpty
        · simp [run_single_task, hbw] at h
        · simp [run_single_task, hbw]

theorem run_single_task_trace_shape (task repo mode : String) (env : TaskEnv) :
    ∃ tl, (run_single_task task repo mode env).2 = Ev.reset :: tl ∧ Ev.reset ∉ tl := by
  obtain ⟨ro, a1, a2, a3, pr, llm, b1, b2, b3, wf, fs0⟩ := env
  cases ro
  · exact ⟨[], by simp [run_single_task], by simp⟩
  · cases pr
    · exact ⟨[Ev.runTests false], by simp [run_single_task], by simp⟩
    · cases llm with
      | error e =>
        exact ⟨[Ev.runTests false, Ev.llmCall], by simp [run_single_task], by simp⟩
      | ok resp =>
        by_cases hbw : (blocks_with_files (extract_code_blocks resp)).isEmpty
        · exact ⟨[Ev.runTests false, Ev.llmCall], by simp [run_single_task, hbw], by simp⟩
        · exact ⟨[Ev.runTests false, Ev.llmCall, Ev.applyBlocks, Ev.runTests false],
            by simp [run_single_task, hbw], by simp⟩

theorem run_single_task_no_regression_pass (task repo mode : String) (env : TaskEnv) :
    (run_single_task task repo mode env).2.all (fun e => !(e == Ev.runTests true)) = true := by
  obtain ⟨ro, a1, a2, a3, pr, llm, b1, b2, b3, wf, fs0⟩ := env
  cases ro
  · simp [run_single_task]
  · cases pr
    · simp [run_single_task]
    · cases llm with
      | error e => simp [run_single_task]
      | ok resp =>
        by_cases hbw : (blocks_with_files (extract_code_blocks resp)).isEmpty
        · simp [run_single_task, hbw]
        · simp [run_single_task, hbw]

/-! ## Claim C9 -/

/-- C9: for every test-runner invocation, when no `<n> passed` and no
`<n> failed` summary pattern is found in the captured stdout, both the
passed count and the failed count of the resulting TestResult are 0,
regardless of the process exit code. -/
theorem c9_parse_absent_zero_counts :
    ∀ (ec : Int) (out err : String),
      findCount "passed" out = none → findCount "failed" out = none →
      (run_tests ec out err).tests_passed = 0 ∧ (run_tests ec out err).tests_failed = 0 := by
  intro ec out err h1 h2
  simp [run_tests, h1, h2]

theorem c9_parse_absent_zero_counts_witness :
    (findCount "passed" "collected 0 items / 1 error" = none
      ∧ findCount "failed" "collected 0 items / 1 error" = none)
    ∧ (run_tests 3 "collected 0 items / 1 error" "").tests_passed = 0
    ∧ (run_tests 3 "collected 0 items / 1 error" "").tests_failed = 0 :=
  ⟨⟨by decide, by decide⟩,
   c9_parse_absent_zero_counts 3 "collected 0 items / 1 error" "" (by decide) (by decide)⟩

/-! ## Claim C10 -/

/-- C10: in every TestResult produced by a test invocation, tests_total
equals tests_passed plus tests_failed unconditionally; when summary
parsing fails, all three counts are 0. -/
theorem c10_total_count_invariant :
    ∀ (ec : Int) (out err : String),
      (run_tests ec out err).tests_total
        = (run_tests ec out err).tests_passed + (run_tests ec out err).tests_failed
      ∧ ((findCount "passed" out = none ∧ findCount "failed" out = none) →
          (run_tests ec out err).tests_passed = 0
          ∧ (run_tests ec out err).tests_failed = 0
          ∧ (run_tests ec out err).tests_total = 0) := by
  intro ec out err
  refine ⟨rfl, ?_⟩
  rintro ⟨h1, h2⟩
  simp [run_tests, h1, h2]

theorem c10_total_count_invariant_witness :
    ((findCount "passed" "Segmentation fault" = none
        ∧ findCount "failed" "Segmentation fault" = none)
      ∧ (run_tests 139 "Segmentation fault" "").tests_passed = 0
      ∧ (run_tests 139 "Segmentation fault" "").tests_failed = 0
      ∧ (run_tests 139 "Segmentation fault" "").tests_total = 0)
    ∧ (run_tests 139 "Segmentation fault" "").tests_total
        = (run_tests 139 "Segmentation fault" "").tests_passed
          + (run_tests 139 "Segmentation fault" "").tests_failed :=
  ⟨⟨⟨by decide, by decide⟩,
    (c10_total_count_invariant 139 "Segmentation fault" "").2 ⟨by decide, by decide⟩⟩,
   (c10_total_count_invariant 139 "Segmentation fault" "").1⟩

/-! ## Claim C3 -/

/-- C3: a post TestResult with zero parsed tests and a non-zero exit code
is distinguishable in the run record both from a cleanly-run empty suite
(zero tests, exit 0) and from an ordinary test failure: the three states
are pairwise exclusive on the record's fields, the `passed` flag
separates harness-broken from clean-empty, and no harness-broken record
equals a clean-empty or ordinary-failure record. -/
theorem c3_harness_broken_distinct :
    ∀ (ec : Int) (out err : String),
      (harnessBroken (run_tests ec out err) → ¬ cleanEmptySuite (run_tests ec out err))
      ∧ (harnessBroken (run_tests ec out err) → ¬ ordinaryTestFailure (run_tests ec out err))
      ∧ (harnessBroken (run_tests ec out err) → (run_tests ec out err).passed = false)
      ∧ (cleanEmptySuite (run_tests ec out err) → (run_tests ec out err).passed = true)
      ∧ (∀ (ec2 : Int) (out2 err2 : String),
          harnessBroken (run_tests ec out err) →
          (cleanEmptySuite (run_tests ec2 out2 err2)
            ∨ ordinaryTestFailure (run_tests ec2 out2 err2)) →
          run_tests ec out err ≠ run_tests ec2 out2 err2) := by
  intro ec out err
  have htot : (run_tests ec out err).tests_total
      = (run_tests ec out err).tests_passed + (run_tests ec out err).tests_failed := rfl
  refine ⟨?_, ?_, ?_, ?_, ?_⟩
  · rintro ⟨_, h2⟩ ⟨_, g2⟩
    exact h2 g2
  · rintro ⟨h1, _⟩ hf
    unfold ordinaryTestFailure at hf
    omega
  · rintro ⟨_, h2⟩
    have h2' : ec ≠ 0 := h2
    simp [run_tests, h2']
  · rintro ⟨_, h2⟩
    have h2' : ec = 0 := h2
    simp [run_tests, h2']
  · intro ec2 out2 err2 hb hcase heq
    rcases hcase with hclean | hord
    · rw [heq] at hb
      exact hb.2 hclean.2
    · have hf : (run_tests ec out err).tests_failed = 0 := by
        have h1 : (run_tests ec out err).tests_total = 0 := hb.1
        omega
      rw [heq] at hf
      unfold ordinaryTestFailure at hord
      omega

theorem c3_harness_broken_distinct_witness :
    harnessBroken (run_tests 2 "" "")
    ∧ (run_tests 2 "" "").passed = false
    ∧ cleanEmptySuite (run_tests 0 "" "")
    ∧ run_tests 2 "" "" ≠ run_tests 0 "" ""
    ∧ ordinaryTestFailure (run_tests 1 "4 passed, 2 failed" "")
    ∧ run_tests 2 "" "" ≠ run_tests 1 "4 passed, 2 failed" "" :=
  ⟨⟨by decide, by decide⟩,
   (c3_harness_broken_distinct 2 "" "").2.2.1 ⟨by decide, by decide⟩,
   ⟨by decide, by decide⟩,
   (c3_harness_broken_distinct 2 "" "").2.2.2.2 0 "" "" ⟨by decide, by decide⟩
     (Or.inl ⟨by decide, by decide⟩),
   (by decide : 0 < (run_tests 1 "4 passed, 2 failed" "").tests_failed),
   (c3_harness_broken_distinct 2 "" "").2.2.2.2 1 "4 passed, 2 failed" ""
     ⟨by decide, by decide⟩
     (Or.inr (by decide : 0 < (run_tests 1 "4 passed, 2 failed" "").tests_failed))⟩

theorem trace_no_regression (env : String → String → String → TaskEnv)
    (modes : List String) :
    ∀ pairs, ∀ e ∈ traceFor env modes pairs, ¬ e = Ev.runTests true := by
  intro pairs
  induction pairs with
  | nil => intro e he; simp [traceFor] at he
  | cons p ps ih =>
    obtain ⟨repo, t⟩ := p
    intro e he
    simp only [traceFor, List.mem_append, List.mem_flatten, List.mem_map] at he
    rcases he with ⟨l, ⟨m, hm, hfl⟩, hel⟩ | he
    · subst hfl
      have hall := run_single_task_no_regression_pass t repo m (env repo t m)
      rw [List.all_eq_true] at hall
      have h2 := hall e hel
      simpa using h2
    · exact ih e he

theorem mem_runsFor_record (env : String → String → String → TaskEnv)
    (modes : List String) :
    ∀ pairs (x : String × String × String × RunRecord), x ∈ runsFor env modes pairs →
      ∃ repo t m, x = (repo, t, m, (run_single_task t repo m (env repo t m)).1) := by
  intro pairs
  induction pairs with
  | nil => intro x hx; simp [runsFor] at hx
  | cons p ps ih =>
    obtain ⟨repo, t⟩ := p
    intro x hx
    simp only [runsFor, List.mem_append, List.mem_map] at hx
    rcases hx with ⟨m, hm, rfl⟩ | hx
    · exact ⟨repo, t, m, rfl⟩
    · exact ih x hx

/-! ## Claim C1 -/

/-- C1 counterexample: a run whose post TestResult has `tests_failed = 0`
(the summary did not parse) but whose success flag is false because the
runner exited non-zero — so the success flag is not
`post.failed_count == 0`. -/
theorem c1_success_flag_counterexample :
    (run_single_task "task_001" "fastapi-template" "baseline" envC1).1.post_test.map
        TestResult.tests_failed = some 0
    ∧ (run_single_task "task_001" "fastapi-template" "baseline" envC1).1.success = false :=
  ⟨by decide, by decide⟩

/-- C1 amended: for every run with a pre and a post TestResult, the score
delta equals post.passed_count minus pre.passed_count, the classification
is "fix" when the delta is positive, "regression" when negative and
"no-op" otherwise, and the run's binary success flag is true exactly when
the post test invocation exited with code 0 (not when post.failed_count
is zero). -/
theorem c1_scoring_amended :
    ∀ (task repo mode : String) (env : TaskEnv) (pre post : TestResult),
      (run_single_task task repo mode env).1.pre_test = some pre →
      (run_single_task task repo mode env).1.post_test = some post →
      (run_single_task task repo mode env).1.tests_fixed
          = (post.tests_passed : Int) - (pre.tests_passed : Int)
      ∧ (classification (run_single_task task repo mode env).1.tests_fixed = "fix"
          ↔ pre.tests_passed < post.tests_passed)
      ∧ (classification (run_single_task task repo mode env).1.tests_fixed = "regression"
          ↔ post.tests_passed < pre.tests_passed)
      ∧ (classification (run_single_task task repo mode env).1.tests_fixed = "no-op"
          ↔ post.tests_passed = pre.tests_passed)
      ∧ ((run_single_task task repo mode env).1.success = true ↔ post.exit_code = 0) := by
  intro task repo mode env pre post hpre hpost
  obtain ⟨ro, a1, a2, a3, pr, llm, b1, b2, b3, wf, fs0⟩ := env
  cases ro
  · simp [run_single_task, initRecord] at hpost
  · cases pr with
    | none => simp [run_single_task, initRecord] at hpost
    | some pv =>
      cases llm with
      | error e => simp [run_single_task, initRecord] at hpost
      | ok resp =>
        by_cases hbw : (blocks_with_files (extract_code_blocks resp)).isEmpty
        · simp [run_single_task, initRecord, hbw] at hpost
        · have hpre' : run_tests a1 a2 a3 = pre := by
            simpa [run_single_task, hbw] using hpre
          have hpost' : run_tests b1 b2 b3 = post := by
            simpa [run_single_task, hbw] using hpost
          have htf : (run_single_task task repo mode ⟨true, a1, a2, a3, some pv, Except.ok resp,
              b1, b2, b3, wf, fs0⟩).1.tests_fixed
              = ((run_tests b1 b2 b3).tests_passed : Int)
                - ((run_tests a1 a2 a3).tests_passed : Int) := by
            simp [run_single_task, hbw]
          have hss : (run_single_task task repo mode ⟨true, a1, a2, a3, some pv, Except.ok resp,
              b1, b2, b3, wf, fs0⟩).1.success = (run_tests b1 b2 b3).passed := by
            simp [run_single_task, hbw]
          subst hpre' hpost'
          refine ⟨htf, ?_, ?_, ?_, ?_⟩
          · rw [htf, (classification_spec _).1]
            omega
          · rw [htf, (classification_spec _).2.1]
            omega
          · rw [htf, (classification_spec _).2.2]
            omega
          · rw [hss]
            simp [run_tests]

theorem c1_scoring_amended_witness :
    ((run_single_task "task_001" "fastapi-template" "baseline" envC1).1.pre_test
        = some (run_tests 1 "5 passed, 3 failed" "")
      ∧ (run_single_task "task_001" "fastapi-template" "baseline" envC1).1.post_test
        = some (run_tests 2 "ImportError while loading conftest" ""))
    ∧ (run_single_task "task_001" "fastapi-template" "baseline" envC1).1.tests_fixed
        = ((run_tests 2 "ImportError while loading conftest" "").tests_passed : Int)
          - ((run_tests 1 "5 passed, 3 failed" "").tests_passed : Int)
    ∧ ((run_single_task "task_001" "fastapi-template" "baseline" envC1).1.success = true
        ↔ (run_tests 2 "ImportError while loading conftest" "").exit_code = 0) :=
  have h := c1_scoring_amended "task_001" "fastapi-template" "baseline" envC1
    (run_tests 1 "5 passed, 3 failed" "")
    (run_tests 2 "ImportError while loading conftest" "") (by decide) (by decide)
  ⟨⟨by decide, by decide⟩, h.1, h.2.2.2.2⟩

/-! ## Claim C2 -/

/-- C2 counterexample: in a run where two previously passing tests fail
afterwards (delta −2), the cumulative true-regression counter increments
by exactly 1 — it counts runs, not tests — and the whole experiment
performs no test invocation with the regression flag, so no second pass
over the regression suite exists. -/
theorem c2_true_regression_counterexample :
    (run_aspect_experiment [("fastapi-template", "task_001")] ["baseline"]
        envC2fn).true_regressions "baseline" = 1
    ∧ ((run_aspect_experiment [("fastapi-template", "task_001")] ["baseline"]
        envC2fn).runs.map (fun q => q.2.2.2.tests_fixed)) = [-2]
    ∧ (run_aspect_experiment [("fastapi-template", "task_001")] ["baseline"]
        envC2fn).trace.all (fun e => !(e == Ev.runTests true)) = true :=
  ⟨by decide, by decide, by decide⟩

/-- C2 amended: for every mode, the cumulative true-regression counter
equals the number of runs of that mode whose task-suite delta
(`tests_fixed`) is negative, accumulated in the same loop; no test
invocation over the regression suite (the `with_regression` flag) occurs
anywhere in the pipeline. -/
theorem c2_true_regression_amended :
    ∀ (pairs : List (String × String)) (modes : List String)
      (env : String → String → String → TaskEnv) (x : String),
      (run_aspect_experiment pairs modes env).true_regressions x
        = (run_aspect_experiment pairs modes env).runs.countP
            (fun q => (q.2.2.1 == x) && decide (q.2.2.2.tests_fixed < 0))
      ∧ (run_aspect_experiment pairs modes env).trace.all
          (fun e => !(e == Ev.runTests true)) = true := by
  intro pairs modes env x
  constructor
  · show trueRegsFor env modes pairs x = (runsFor env modes pairs).countP _
    induction pairs with
    | nil => rfl
    | cons p ps ih =>
      obtain ⟨repo, t⟩ := p
      have hrow : ∀ (ms : List String),
          trueRegsRow repo t env ms x
            = (ms.map (fun m =>
                (repo, t, m, (run_single_task t repo m (env repo t m)).1))).countP
                (fun q => (q.2.2.1 == x) && decide (q.2.2.2.tests_fixed < 0)) := by
        intro ms
        induction ms with
        | nil => rfl
        | cons m ms ihm =>
          simp only [trueRegsRow, List.map_cons, List.countP_cons, ihm]
          by_cases htf : (run_single_task t repo m (env repo t m)).1.tests_fixed < 0
          · by_cases hx : x = m
            · simp [hx, htf, Nat.add_comm]
            · have hx' : ¬ m = x := fun h => hx h.symm
              simp [hx, hx', htf]
          · simp [htf]
      simp only [trueRegsFor, runsFor, List.countP_append, hrow modes, ih]
  · show (traceFor env modes pairs).all _ = true
    rw [List.all_eq_true]
    intro e he
    have hne := trace_no_regression env modes pairs e he
    simpa using hne

/-! ## Claim C6 -/

/-- C6 counterexample: a run whose provider call succeeded (the response
was recorded) but which extracted no path-annotated block has a null
post_test and a non-null error — so "absent a provider error" does not
guarantee non-null pre/post test fields. -/
theorem c6_post_test_counterexample :
    (run_single_task "task_001" "fastapi-template" "baseline" envC6bad).1.post_test = none
    ∧ (run_single_task "task_001" "fastapi-template" "baseline" envC6bad).1.llm_response
        = "I would refactor the session handling here, but no code is required."
    ∧ (run_single_task "task_001" "fastapi-template" "baseline" envC6bad).1.error
        = some "No code blocks with filepath extracted" :=
  ⟨by decide, by decide, by decide⟩

/-- C6 amended: the matrix yields exactly one run record per (task, mode)
pair — 4 records for 2 tasks × 2 modes — regardless of per-run failures
(the controller advances unconditionally); every record with no recorded
error has non-null pre_test and post_test; and each run's trace starts
with exactly one RESET, which therefore precedes its pre-test. -/
theorem c6_matrix_amended :
    ∀ (pairs : List (String × String)) (modes : List String)
      (env : String → String → String → TaskEnv),
      (run_aspect_experiment pairs modes env).runs.length = pairs.length * modes.length
      ∧ (∀ x ∈ (run_aspect_experiment pairs modes env).runs,
          x.2.2.2.error = none →
          x.2.2.2.pre_test.isSome = true ∧ x.2.2.2.post_test.isSome = true)
      ∧ (∀ (task repo mode : String) (e : TaskEnv),
          ∃ tl, (run_single_task task repo mode e).2 = Ev.reset :: tl ∧ Ev.reset ∉ tl) := by
  intro pairs modes env
  refine ⟨?_, ?_, ?_⟩
  · show (runsFor env modes pairs).length = _
    induction pairs with
    | nil => simp [runsFor]
    | cons p ps ih =>
      obtain ⟨repo, t⟩ := p
      simp only [runsFor, List.length_append, List.length_map, ih, List.length_cons,
        Nat.succ_mul]
      exact Nat.add_comm _ _
  · intro x hx herr
    obtain ⟨repo, t, m, rfl⟩ := mem_runsFor_record env modes pairs x hx
    exact run_single_task_error_none t repo m (env repo t m) herr
  · intro task repo mode e
    exact run_single_task_trace_shape task repo mode e

theorem c6_matrix_amended_witness :
    (run_aspect_experiment [("fastapi-template", "t1"), ("fastapi-template", "t2")]
        ["baseline", "aspect"] envC6fn).runs.length = 4
    ∧ (run_single_task "t1" "fastapi-template" "baseline"
        (envC6fn "fastapi-template" "t1" "baseline")).1.error = none
    ∧ (run_single_task "t1" "fastapi-template" "baseline"
        (envC6fn "fastapi-template" "t1" "baseline")).1.pre_test.isSome = true
    ∧ (run_single_task "t1" "fastapi-template" "baseline"
        (envC6fn "fastapi-template" "t1" "baseline")).1.post_test.isSome = true := by
  have h := c6_matrix_amended [("fastapi-template", "t1"), ("fastapi-template", "t2")]
    ["baseline", "aspect"] envC6fn
  have hmem : (("fastapi-template", "t1", "baseline",
      (run_single_task "t1" "fastapi-template" "baseline"
        (envC6fn "fastapi-template" "t1" "baseline")).1) :
      String × String × String × RunRecord) ∈
      (run_aspect_experiment [("fastapi-template", "t1"), ("fastapi-template", "t2")]
        ["baseline", "aspect"] envC6fn).runs := by decide
  have herr : (run_single_task "t1" "fastapi-template" "baseline"
      (envC6fn "fastapi-template" "t1" "baseline")).1.error = none := by decide
  have h2 := h.2.1 _ hmem herr
  exact ⟨by simpa using h.1, herr, h2.1, h2.2⟩

theorem existsPath_write_parent (fs : FS) (t : List String) (c : String) :
    existsPath (writeFile (addDirs fs t.dropLast) t c) t.dropLast = true := by
  by_cases h : t.dropLast = []
  · rw [h]
    exact existsPath_nil _
  · rw [existsPath_writeFile_iff, existsPath_addDirs_iff]
    exact Or.inl (Or.inr (mem_ancestors_self _ h))

/-! ## Claim C4 -/

/-- C4: a fenced region without a recognized filepath annotation never
reaches the disk — application of any block list coincides with
application of only its path-annotated blocks — and a response with one
labelled and one unlabelled fence yields exactly one path-annotated
CodeChange out of two extracted regions. -/
theorem c4_unlabelled_fences_discarded :
    (∀ (blocks : List Block) (fs : FS) (fails : List String → Bool),
        apply_code_blocks blocks fs fails
          = apply_code_blocks (blocks_with_files blocks) fs fails)
    ∧ (extract_code_blocks respC4).length = 2
    ∧ (blocks_with_files (extract_code_blocks respC4)).length = 1
    ∧ (blocks_with_files (extract_code_blocks respC4)).map Block.file
        = [some "app/main.py"] := by
  refine ⟨?_, by decide, by decide, by decide⟩
  intro blocks
  induction blocks with
  | nil => intro fs fails; rfl
  | cons b bs ih =>
    intro fs fails
    cases hb : b.file with
    | none =>
      simp only [blocks_with_files, List.filter_cons, hb]
      simpa [apply_code_blocks, hb, blocks_with_files] using ih fs fails
    | some raw =>
      by_cases hr : raw = ""
      · subst hr
        simp only [blocks_with_files, List.filter_cons, hb]
        simpa [apply_code_blocks, hb, blocks_with_files] using ih fs fails
      · have hr' : (raw == "") = false := by simp [hr]
        simp only [blocks_with_files, List.filter_cons, hb, hr', Bool.not_false, if_true]
        simp only [apply_code_blocks, hb, hr', Bool.false_eq_true, if_false]
        split
        · simpa [blocks_with_files] using ih fs fails
        · have := ih (writeFile (addDirs fs (resolveTarget fs (normPath raw)).dropLast)
            (resolveTarget fs (normPath raw)) b.code) fails
          simp only [blocks_with_files] at this
          rw [this]

/-! ## Claim C5 -/

/-- C5: applying two fences annotated with the same path (in a scenario
where the path's leading directory is not the backend prefix and no
write fails) leaves the resolved file holding exactly the later fence's
content — last wins, no merging — and both applications are reported. -/
theorem c5_last_fence_wins (fs0 : FS) (b₁ b₂ : Block) (p : String)
    (fails : List String → Bool)
    (h₁ : b₁.file = some p) (h₂ : b₂.file = some p) (hp : ¬ p = "")
    (hb : ((pathComponents (normPath p)).dropLast).head? ≠ some "backend")
    (hf : ∀ t, fails t = false) :
    lookupFile (apply_code_blocks [b₁, b₂] fs0 fails).fs
        (resolveTarget fs0 (normPath p)) = some b₂.code
    ∧ (apply_code_blocks [b₁, b₂] fs0 fails).modified_files
        = [normPath p, normPath p] := by
  have hp' : (p == "") = false := by simp [hp]
  have hstab := resolveTarget_write_stable fs0 (normPath p) b₁.code hb
  refine ⟨?_, ?_⟩ <;>
    simp [apply_code_blocks, h₁, h₂, hp', hf, hstab, lookupFile_writeFile_self]

theorem c5_last_fence_wins_witness :
    lookupFile (apply_code_blocks [blkC5a, blkC5b] (⟨[], []⟩ : FS) (fun _ => false)).fs
        (resolveTarget (⟨[], []⟩ : FS) (normPath "app/util.py")) = some "A = 2"
    ∧ (apply_code_blocks [blkC5a, blkC5b] (⟨[], []⟩ : FS) (fun _ => false)).modified_files
        = [normPath "app/util.py", normPath "app/util.py"]
    ∧ resolveTarget (⟨[], []⟩ : FS) (normPath "app/util.py")
        = ["backend", "app", "util.py"] :=
  have h := c5_last_fence_wins (⟨[], []⟩ : FS) blkC5a blkC5b "app/util.py"
    (fun _ => false) rfl rfl (by decide) (by decide) (fun _ => rfl)
  ⟨h.1, h.2, by decide⟩

/-! ## Claim C7 -/

/-- C7 counterexample: for a path whose parent does not exist and which
is not backend-prefixed, with no backend-side parent either, application
does NOT retry with the backend prefix: the file is written under the
path as given, and nothing appears under `backend/`. -/
theorem c7_backend_fallback_counterexample :
    existsPath (⟨[], []⟩ : FS) (pathComponents (normPath "zzz/x.py")).dropLast = false
    ∧ pyStartsWith "backend/" (normPath "zzz/x.py") = false
    ∧ lookupFile (apply_code_blocks [blkC7] (⟨[], []⟩ : FS) (fun _ => false)).fs
        ["backend", "zzz", "x.py"] = none
    ∧ lookupFile (apply_code_blocks [blkC7] (⟨[], []⟩ : FS) (fun _ => false)).fs
        ["zzz", "x.py"] = some "X = 1" :=
  ⟨by decide, by decide, by decide, by decide⟩

/-- C7 amended: application normalizes separators (no backslash survives)
and strips a leading `./`; the backend-prefix retry happens exactly when
the immediate parent does not exist AND either the backend-prefixed
alternative's parent exists or the path starts with `app/` (not merely
when the path is not already backend-prefixed); missing parent
directories are created and the full content is written, overwriting any
existing file. -/
theorem c7_apply_amended (fs0 : FS) (b : Block) (fp : String)
    (fails : List String → Bool)
    (hb : b.file = some fp) (hne : ¬ fp = "") (hf : ∀ t, fails t = false) :
    lookupFile (apply_code_blocks [b] fs0 fails).fs
        (resolveTarget fs0 (normPath fp)) = some b.code
    ∧ (apply_code_blocks [b] fs0 fails).modified_files = [normPath fp]
    ∧ existsPath (apply_code_blocks [b] fs0 fails).fs
        (resolveTarget fs0 (normPath fp)).dropLast = true
    ∧ (normPath fp).toList.all (fun ch => !(ch == '\\')) = true
    ∧ (existsPath fs0 (pathComponents (normPath fp)).dropLast = true →
        resolveTarget fs0 (normPath fp) = pathComponents (normPath fp))
    ∧ (existsPath fs0 (pathComponents (normPath fp)).dropLast = false →
        (existsPath fs0 ("backend" :: pathComponents (normPath fp)).dropLast
          || pyStartsWith "app/" (normPath fp)) = true →
        resolveTarget fs0 (normPath fp) = "backend" :: pathComponents (normPath fp))
    ∧ (existsPath fs0 (pathComponents (normPath fp)).dropLast = false →
        (existsPath fs0 ("backend" :: pathComponents (normPath fp)).dropLast
          || pyStartsWith "app/" (normPath fp)) = false →
        resolveTarget fs0 (normPath fp) = pathComponents (normPath fp)) := by
  have hr' : (fp == "") = false := by simp [hne]
  refine ⟨?_, ?_, ?_, ?_, ?_, ?_, ?_⟩
  · simp [apply_code_blocks, hb, hr', hf, lookupFile_writeFile_self]
  · simp [apply_code_blocks, hb, hr', hf]
  · simp [apply_code_blocks, hb, hr', hf, existsPath_write_parent]
  · simp only [normPath]
    rw [List.all_eq_true]
    intro x hx
    have hx' : x ∈ fp.toList.map (fun c => if c == '\\' then '/' else c) := by
      split at hx
      · exact List.mem_of_mem_drop hx
      · exact hx
    obtain ⟨c, _, rfl⟩ := List.mem_map.mp hx'
    by_cases hc : c = '\\'
    · simp [hc]
    · simp [hc]
  · intro h1
    simp [resolveTarget, h1]
  · intro h1 h2
    simp [resolveTarget, h1, h2]
  · intro h1 h2
    simp [resolveTarget, h1, h2]

theorem c7_apply_amended_witness :
    (existsPath fsC7w (pathComponents (normPath "./app\\main.py")).dropLast = true
      ∧ normPath "./app\\main.py" = "app/main.py"
      ∧ lookupFile fsC7w ["app", "main.py"] = some "OLD = True")
    ∧ lookupFile (apply_code_blocks [blkC7w] fsC7w (fun _ => false)).fs
        (resolveTarget fsC7w (normPath "./app\\main.py")) = some "NEW = True"
    ∧ (apply_code_blocks [blkC7w] fsC7w (fun _ => false)).modified_files
        = [normPath "./app\\main.py"]
    ∧ resolveTarget fsC7w (normPath "./app\\main.py")
        = pathComponents (normPath "./app\\main.py") :=
  have h := c7_apply_amended fsC7w blkC7w "./app\\main.py" (fun _ => false)
    rfl (by decide) (fun _ => rfl)
  ⟨⟨by decide, by decide, by decide⟩, h.1, h.2.1, h.2.2.2.2.1 (by decide)⟩

/-! ## Claim C8 -/

/-- C8: a write failure on one change is skipped without aborting the
remaining changes — application of a failing block equals application of
the rest — the returned list is exactly the reported paths of the writes
actually performed, and with no failures it lists every path-annotated
block's normalized path in order. -/
theorem c8_write_failure_skipped :
    (∀ (blocks : List Block) (fs : FS) (fails : List String → Bool),
        (apply_code_blocks blocks fs fails).modified_files
          = (apply_code_blocks blocks fs fails).writes.map (fun w => w.1))
    ∧ (∀ (b : Block) (bs : List Block) (fs : FS) (fails : List String → Bool) (raw : String),
        b.file = some raw → ¬ raw = "" →
        fails (resolveTarget fs (normPath raw)) = true →
        apply_code_blocks (b :: bs) fs fails = apply_code_blocks bs fs fails)
    ∧ (∀ (blocks : List Block) (fs : FS) (fails : List String → Bool),
        (∀ t, fails t = false) →
        (apply_code_blocks blocks fs fails).modified_files
          = blocks.filterMap (fun b => b.file.bind
              (fun p => if p = "" then none else some (normPath p)))) := by
  refine ⟨?_, ?_, ?_⟩
  · intro blocks
    induction blocks with
    | nil => intro fs fails; rfl
    | cons b bs ih =>
      intro fs fails
      cases hb : b.file with
      | none => simpa [apply_code_blocks, hb] using ih fs fails
      | some raw =>
        by_cases hr : raw = ""
        · subst hr
          simpa [apply_code_blocks, hb] using ih fs fails
        · have hr' : (raw == "") = false := by simp [hr]
          simp only [apply_code_blocks, hb, hr', Bool.false_eq_true, if_false]
          split
          · exact ih fs fails
          · simp only [List.map_cons]
            rw [ih]
  · intro b bs fs fails raw hbf hne hfl
    have hr' : (raw == "") = false := by simp [hne]
    simp [apply_code_blocks, hbf, hr', hfl]
  · intro blocks
    induction blocks with
    | nil => intro fs fails hf; rfl
    | cons b bs ih =>
      intro fs fails hf
      cases hb : b.file with
      | none =>
        simpa [apply_code_blocks, hb, List.filterMap_cons] using ih fs fails hf
      | some raw =>
        by_cases hr : raw = ""
        · subst hr
          simpa [apply_code_blocks, hb, List.filterMap_cons] using ih fs fails hf
        · have hr' : (raw == "") = false := by simp [hr]
          simp only [apply_code_blocks, hb, hr', Bool.false_eq_true, if_false, hf,
            List.filterMap_cons, Option.some_bind, hr, if_neg]
          simp [hr, ih _ fails hf]

theorem c8_write_failure_skipped_witness :
    failsC8 (resolveTarget (⟨[], []⟩ : FS) (normPath "bad.py")) = true
    ∧ apply_code_blocks [blkC8bad, blkC8b] (⟨[], []⟩ : FS) failsC8
        = apply_code_blocks [blkC8b] (⟨[], []⟩ : FS) failsC8
    ∧ (apply_code_blocks [blkC8a, blkC8n, blkC8b] (⟨[], []⟩ : FS)
        (fun _ => false)).modified_files = ["a.py", "b.py"]
    ∧ (apply_code_blocks [blkC8bad, blkC8b] (⟨[], []⟩ : FS) failsC8).modified_files
        = ["b.py"] := by
  refine ⟨by decide, ?_, ?_, by decide⟩
  · exact c8_write_failure_skipped.2.1 blkC8bad [blkC8b] (⟨[], []⟩ : FS) failsC8
      "bad.py" rfl (by decide) (by decide)
  · rw [c8_write_failure_skipped.2.2 [blkC8a, blkC8n, blkC8b] (⟨[], []⟩ : FS)
      (fun _ => false) (fun _ => rfl)]
    decide
